import Mathlib

/- Shallow embedding of the transport/session registry of
   `server/src/utils/transport.utils.ts` of strapi-plugin-mcp, together with
   the configuration schemas it imports from `server/src/config`
   (`LruSessionConfigSchema`, `RedisSessionConfigSchema`).

   Modelling conventions:
   * JavaScript numbers that carry ms durations or db indices are `Int`
     (the schemas involved only ever check integrality/positivity);
     timestamps are `Nat`.
   * JavaScript exceptions are `Except String`; every `try/catch` (and
     promise `.catch`) of the source appears as a `match` on an `Except`
     value, so "never throws" is the statement that an operation's
     `Except`-typed embedding always returns `.ok`.
   * `StreamableHTTPServerTransport` objects are opaque, mutable and
     closable; they live in an explicit heap `List (Nat × Transport)` keyed
     by an allocation counter.  A transport records its (optional) session id
     field, what its `sessionIdGenerator` is fixed to return (when it is the
     constant generator built by the rehydration path), and its mutable
     `onclose` field as an explicit chain of the wrappers the source
     installs.
   * The redis mirror is a key → absolute-expiry map plus a fault model
     saying which client calls throw; an event log records the externally
     visible actions (presence writes/deletes, local deletions, invocations
     of pre-existing close behaviour). -/

/-- Mode discriminator of the options union: `'memory'` (local LRU only) or
`'redis'` (LRU plus presence mirror). -/
inductive StoreMode where
  | memory
  | redis
deriving DecidableEq, Repr

/-- Connection info accepted by `RedisSessionConfigSchema`: either a plain
connection string or a structured object per `redisClientConfigSchema`
(`port`, `host`, optional `username`/`password`/`db`). -/
inductive RedisConnection where
  | url (s : String)
  | obj (host : String) (port : Int) (username : Option String)
      (password : Option String) (db : Option Int)
deriving DecidableEq, Repr

/-- Raw options handed to `createTransportStore` before
`TransportOptionsSchema.parse`.  `type` is the discriminator string; `keyPre`
models the source's `keyPrefix` option; fields that are absent in the input
object are `none`.  Unknown keys are stripped by zod, so fields belonging to
the other mode are simply ignored by the parse. -/
structure RawOptions where
  type : String
  max : Option Int := none
  ttlMs : Option Int := none
  updateAgeOnGet : Option Bool := none
  connection : Option RedisConnection := none
  keyPre : Option String := none
deriving DecidableEq, Repr

/-- Result of a successful `TransportOptionsSchema.parse`. -/
inductive ParsedOptions where
  | memory (max : Option Int) (ttlMs : Option Int) (updateAgeOnGet : Option Bool)
  | redis (connection : Option RedisConnection) (ttlMs : Option Int)
      (keyPre : Option String)
deriving DecidableEq, Repr

/-- `TransportOptionsSchema.parse`: a `z.discriminatedUnion('type', ...)` of
`ExtendedLruOptionsSchema` — `LruSessionConfigSchema` (type `'memory'`)
extended with optional `max : z.number().int().positive()`, optional
`updateAgeOnGet : z.boolean()` and optional `ttlMs : z.number().int().positive()`
— and `RedisSessionConfigSchema` (type `'redis'`, optional string-or-object
`connection`, optional plain `ttlMs : z.number()`, optional string key
prefix).  An unrecognised discriminator fails; in memory mode a non-positive
`max` or `ttlMs` fails.  A zod failure is a thrown exception, i.e. `.error`. -/
def parseTransportOptions (raw : RawOptions) : Except String ParsedOptions :=
  if raw.type = "memory" then
    if raw.max.all (fun m => decide (0 < m)) && raw.ttlMs.all (fun t => decide (0 < t)) then
      .ok (.memory raw.max raw.ttlMs raw.updateAgeOnGet)
    else
      .error "invalid memory session options"
  else if raw.type = "redis" then
    .ok (.redis raw.connection raw.ttlMs raw.keyPre)
  else
    .error "invalid discriminator"

/-- `TEN_MINUTES = 10 * 60 * 1000`, the default ttl of both modes. -/
def TEN_MINUTES : Nat := 10 * 60 * 1000

/-- `MAX_ITEMS_COUNT = 20`, the default LRU capacity. -/
def MAX_ITEMS_COUNT : Nat := 20

/-- Configuration captured by the closures `createTransportStore` returns:
the resolved local LRU parameters (`lruResolved` in the source), the raw
redis options that `set`/`get`/`remove` consult again at every call
(`parsed.ttlMs`, `parsed.keyPrefix`), and whether a redis client was
successfully constructed (`redisClient !== undefined`). -/
structure StoreCfg where
  mode : StoreMode
  max : Nat
  ttl : Nat
  updateAgeOnGet : Bool
  redisTtlMs : Option Int
  keyPre : Option String
  hasClient : Bool
deriving DecidableEq, Repr

/-- Body of `createTransportStore` after the parse succeeded: `lruResolved`
takes the configured `max`/`ttlMs`/`updateAgeOnGet` (with defaults 20,
`TEN_MINUTES`, `true`) in memory mode, and always the `defaultLruOptions`
values in redis mode; in redis mode a client is constructed only when
connection info is present (otherwise the internally thrown error is caught)
and client construction itself may fail (`ctorFails`), also caught, leaving
`hasClient = false` — local-only degradation. -/
def resolveStore (parsed : ParsedOptions) (ctorFails : Bool) : StoreCfg :=
  match parsed with
  | .memory max ttlMs upd =>
      { mode := StoreMode.memory
        max := (max.getD (MAX_ITEMS_COUNT : Int)).toNat
        ttl := (ttlMs.getD (TEN_MINUTES : Int)).toNat
        updateAgeOnGet := upd.getD true
        redisTtlMs := none
        keyPre := none
        hasClient := false }
  | .redis conn ttlMs kp =>
      { mode := StoreMode.redis
        max := MAX_ITEMS_COUNT
        ttl := TEN_MINUTES
        updateAgeOnGet := true
        redisTtlMs := ttlMs
        keyPre := kp
        hasClient :=
          match conn with
          | none => false
          | some _ => !ctorFails }

/-- `createTransportStore(options)`: `TransportOptionsSchema.parse` (whose
failure is the only exception that escapes), then `resolveStore`. -/
def createTransportStoreE (raw : RawOptions) (ctorFails : Bool) : Except String StoreCfg :=
  (parseTransportOptions raw).map (fun parsed => resolveStore parsed ctorFails)

/-- Whether the string's last character is `':'` — `rawPrefix.endsWith(':')`. -/
def endsWithColon (s : String) : Bool := s.data.getLast? == some ':'

/-- Drop the last character — `rawPrefix.slice(0, -1)`. -/
def dropLastChar (s : String) : String := String.mk s.data.dropLast

/-- `generateRedisKey`: `rawPrefix = options.keyPrefix ?? defaultRedisOptions.keyPrefix`
(the default being `"mcp:session"`); one trailing `':'` is stripped, then
`':' + sessionId` is appended.  The source's `?? 'strapi-mcp'` fallback on
the non-colon branch is unreachable because the default is non-null. -/
def generateRedisKey (keyPre : Option String) (sessionId : String) : String :=
  let rawPre := keyPre.getD "mcp:session"
  let normalizedPre := if endsWithColon rawPre then dropLastChar rawPre else rawPre
  normalizedPre ++ ":" ++ sessionId

/-- `GetResult`: the three outcomes of `TransportStore.get`.  Transports are
referenced by heap id. -/
inductive GetResult where
  | existing (tid : Nat)
  | none
  | regenerated (tid : Nat)
deriving DecidableEq, Repr

/-- One entry of the local `lru-cache`: the transport heap id plus the
timestamp from which the entry's ttl runs (set on insertion, and reset on a
successful read when `updateAgeOnGet`). -/
structure Entry where
  tid : Nat
  start : Nat
deriving DecidableEq, Repr

/-- Externally visible actions, recorded in order: invocation of a
pre-existing (caller-installed) close behaviour, a redis presence write
(`SET key value PX ttl`), a redis presence delete, and a local cache delete
(`present` records whether an entry was actually removed). -/
inductive Event where
  | userClose (tag : Nat)
  | mirrorWrite (key : String) (value : String) (px : Int)
  | mirrorDel (key : String)
  | localDelete (sid : String) (present : Bool)
deriving DecidableEq, Repr

/-- The mutable `onclose` field of a transport, as the explicit chain of
wrappers the source builds: `noHandler` is an absent callback, `user` an
opaque caller-installed behaviour, `setWrapper prev sid` the wrapper
installed by `set` (runs `prev`, then — in a `finally` — `remove sid`), and
`ctWrapper prev` the wrapper installed by `createTransport` (runs `prev`,
then removes by the transport's current `sessionId` field if set). -/
inductive CloseHandler where
  | noHandler
  | user (tag : Nat)
  | setWrapper (prev : CloseHandler) (sid : String)
  | ctWrapper (prev : CloseHandler)
deriving DecidableEq, Repr

/-- An opaque `StreamableHTTPServerTransport`: its optional `sessionId`
field, what its `sessionIdGenerator` is fixed to return (`some id` for the
constant generator the rehydration path builds, `none` for an absent or
caller-supplied opaque generator), and its mutable `onclose`. -/
structure Transport where
  sessionId : Option String
  gen : Option String
  onclose : CloseHandler
deriving DecidableEq, Repr

/-- Fault model of the redis client: which of `set`/`get`/`del` throw (or
reject) when called. -/
structure MirrorFaults where
  setThrows : Bool
  getThrows : Bool
  delThrows : Bool
deriving DecidableEq, Repr

/-- A fully working client. -/
def noFaults : MirrorFaults := ⟨false, false, false⟩

/-- A backend that throws on every call. -/
def allThrow : MirrorFaults := ⟨true, true, true⟩

/-- Whole-registry state: the clock, the local LRU (most recently used entry
first), the transport heap with its allocation counter, the mirror contents
(key → absolute expiry, in ms), and the event log. -/
structure State where
  now : Nat
  lru : List (String × Entry)
  transports : List (Nat × Transport)
  nextTid : Nat
  mirror : List (String × Int)
  events : List Event
deriving DecidableEq, Repr

/-- Drop every binding of key `k`. -/
def lruRemoveKey (l : List (String × Entry)) (k : String) : List (String × Entry) :=
  l.filter (fun p => p.1 != k)

/-- `lru-cache` `set(k, v)`: (re)insert as most recently used with a fresh
ttl start; when the insertion pushes the size past `max`, evict the least
recently used entry (the last of the list), irrespective of its ttl. -/
def lruSet (max now : Nat) (l : List (String × Entry)) (k : String) (tid : Nat) :
    List (String × Entry) :=
  let l' := (k, Entry.mk tid now) :: lruRemoveKey l k
  if max < l'.length then l'.dropLast else l'

/-- Lookup without any mutation (the recency/ttl effects live in `lruGet`). -/
def lruFind (l : List (String × Entry)) (k : String) : Option Entry :=
  (l.find? (fun p => p.1 == k)).map (fun p => p.2)

/-- `lru-cache` `get(k)`: a miss returns `none`; a stale entry
(`start + ttl < now`) is deleted lazily and reported as a miss; a live hit
moves the entry to most recently used, resetting its ttl start iff
`updateAge` (sliding expiration), and returns the value. -/
def lruGet (ttl : Nat) (updateAge : Bool) (now : Nat) (l : List (String × Entry))
    (k : String) : List (String × Entry) × Option Nat :=
  match lruFind l k with
  | Option.none => (l, Option.none)
  | Option.some e =>
      if e.start + ttl < now then (lruRemoveKey l k, Option.none)
      else
        ((k, Entry.mk e.tid (if updateAge then now else e.start)) :: lruRemoveKey l k,
          Option.some e.tid)

/-- Heap read. -/
def heapFind (h : List (Nat × Transport)) (tid : Nat) : Option Transport :=
  (h.find? (fun p => p.1 == tid)).map (fun p => p.2)

/-- Heap write (insert or overwrite). -/
def heapSet (h : List (Nat × Transport)) (tid : Nat) (t : Transport) :
    List (Nat × Transport) :=
  (tid, t) :: h.filter (fun p => p.1 != tid)

/-- Mirror delete. -/
def mirrorErase (m : List (String × Int)) (k : String) : List (String × Int) :=
  m.filter (fun p => p.1 != k)

/-- Mirror write with absolute expiry. -/
def mirrorStore (m : List (String × Int)) (k : String) (expiry : Int) :
    List (String × Int) :=
  (k, expiry) :: mirrorErase m k

/-- Whether the mirror currently holds a live (unexpired) record for `k` —
what a redis `GET` observes, the stored value being the truthy `'1'`. -/
def mirrorPresent (now : Nat) (m : List (String × Int)) (k : String) : Bool :=
  match m.find? (fun p => p.1 == k) with
  | Option.some p => decide ((now : Int) < p.2)
  | Option.none => false

/-- `redisClient.set(key, '1', 'PX', ttlMs)` as seen by the caller: either it
throws or it succeeds. -/
def redisSetCall (f : MirrorFaults) : Except String Unit :=
  if f.setThrows then .error "Redis set failed" else .ok ()

/-- `redisClient.get(key)`: either it throws or it reports presence. -/
def redisGetCall (f : MirrorFaults) (now : Nat) (m : List (String × Int)) (k : String) :
    Except String Bool :=
  if f.getThrows then .error "Redis get failed" else .ok (mirrorPresent now m k)

/-- `redisClient.del(key)`: either it throws/rejects or it succeeds. -/
def redisDelCall (f : MirrorFaults) : Except String Unit :=
  if f.delThrows then .error "Redis del failed" else .ok ()

namespace TransportStore

/-- `set(sessionId, transport)` (transport.utils.ts lines 668-705): capture
`previousOnClose` and install the close wrapper, store the transport in the
local LRU, and — when a redis client exists and redis mode is selected —
mirror presence under the generated key with value `'1'` and `PX`
`ttlMs ?? TEN_MINUTES`, any client failure being caught and swallowed. -/
def setE (cfg : StoreCfg) (f : MirrorFaults) (st : State) (sessionId : String)
    (tid : Nat) : Except String State :=
  let st1 :=
    match heapFind st.transports tid with
    | Option.some t =>
        let t' : Transport := { t with onclose := CloseHandler.setWrapper t.onclose sessionId }
        { st with transports := heapSet st.transports tid t' }
    | Option.none => st
  let st2 := { st1 with lru := lruSet cfg.max st1.now st1.lru sessionId tid }
  if cfg.hasClient ∧ cfg.mode = StoreMode.redis then
    let ttlMs := cfg.redisTtlMs.getD (TEN_MINUTES : Int)
    let key := generateRedisKey cfg.keyPre sessionId
    match redisSetCall f with
    | .ok _ =>
        .ok { st2 with
                mirror := mirrorStore st2.mirror key ((st2.now : Int) + ttlMs)
                events := st2.events ++ [Event.mirrorWrite key "1" ttlMs] }
    | .error _ => .ok st2
  else
    .ok st2

/-- Total runner of `setE` (which never actually throws, see `setE_isOk`). -/
def setOp (cfg : StoreCfg) (f : MirrorFaults) (st : State) (sessionId : String)
    (tid : Nat) : State :=
  match setE cfg f st sessionId tid with
  | .ok s => s
  | .error _ => st

/-- `remove(sessionId)` (lines 747-768), also the public `delete`: delete
from the local LRU, and in redis mode delete the presence key, both the
synchronous initiation failure and the rejected promise being caught. -/
def removeE (cfg : StoreCfg) (f : MirrorFaults) (st : State) (sessionId : String) :
    Except String State :=
  let present := (lruFind st.lru sessionId).isSome
  let st1 := { st with
                 lru := lruRemoveKey st.lru sessionId
                 events := st.events ++ [Event.localDelete sessionId present] }
  if cfg.hasClient ∧ cfg.mode = StoreMode.redis then
    let key := generateRedisKey cfg.keyPre sessionId
    match redisDelCall f with
    | .ok _ =>
        .ok { st1 with
                mirror := mirrorErase st1.mirror key
                events := st1.events ++ [Event.mirrorDel key] }
    | .error _ => .ok st1
  else
    .ok st1

/-- Total runner of `removeE`. -/
def removeOp (cfg : StoreCfg) (f : MirrorFaults) (st : State) (sessionId : String) :
    State :=
  match removeE cfg f st sessionId with
  | .ok s => s
  | .error _ => st

/-- Invoke a close-handler chain on behalf of transport `tid`.  The wrapper
installed by `set` runs the previous behaviour first and then (in a
`finally`) removes the id captured at registration; the wrapper installed by
`createTransport` removes by the transport's current `sessionId` field.
Firing does not alter the handler itself, so a second invocation re-runs the
same chain. -/
def fireHandler (cfg : StoreCfg) (f : MirrorFaults) (tid : Nat) (st : State) :
    CloseHandler → State
  | CloseHandler.noHandler => st
  | CloseHandler.user tag => { st with events := st.events ++ [Event.userClose tag] }
  | CloseHandler.setWrapper prev sid => removeOp cfg f (fireHandler cfg f tid st prev) sid
  | CloseHandler.ctWrapper prev =>
      let st1 := fireHandler cfg f tid st prev
      match heapFind st1.transports tid with
      | Option.some t =>
          match t.sessionId with
          | Option.some sid => removeOp cfg f st1 sid
          | Option.none => st1
      | Option.none => st1

/-- Fire `transport.onclose?.()` for the transport at `tid`. -/
def fireClose (cfg : StoreCfg) (f : MirrorFaults) (st : State) (tid : Nat) : State :=
  match heapFind st.transports tid with
  | Option.some t => fireHandler cfg f tid st t.onclose
  | Option.none => st

/-- `createTransport(options)` (lines 770-802): allocate a fresh transport
(whose `sessionIdGenerator` is recorded in `gen`; the session id field is
unset until the protocol layer initializes the session) and install the
cleanup close wrapper of lines 786-799 on top of the initially absent
`onclose`. -/
def createTransport (st : State) (genFixed : Option String) : State × Nat :=
  let tid := st.nextTid
  let t : Transport :=
    { sessionId := Option.none
      gen := genFixed
      onclose := CloseHandler.ctWrapper CloseHandler.noHandler }
  ({ st with transports := heapSet st.transports tid t, nextTid := tid + 1 }, tid)

/-- `get(sessionId?)` (lines 707-745): a missing (or, by JavaScript
falsiness, empty) id is `none`; otherwise the local LRU is consulted; on a
local miss in redis mode with a client, the presence key is fetched inside a
`try` — on a live record a replacement transport is synthesized with its id
generator fixed to `sessionId`, registered via `set`, and returned as
`regenerated`; a thrown lookup (or anything else in the `try`) is caught and
falls through to the plain miss result. -/
def getE (cfg : StoreCfg) (f : MirrorFaults) (st : State) (sessionId : Option String) :
    Except String (State × GetResult) :=
  match sessionId with
  | Option.none => .ok (st, GetResult.none)
  | Option.some sid =>
      if sid = "" then .ok (st, GetResult.none)
      else
        match lruGet cfg.ttl cfg.updateAgeOnGet st.now st.lru sid with
        | (lru1, Option.some tid) => .ok ({ st with lru := lru1 }, GetResult.existing tid)
        | (lru1, Option.none) =>
            let st1 := { st with lru := lru1 }
            if cfg.hasClient ∧ cfg.mode = StoreMode.redis then
              let key := generateRedisKey cfg.keyPre sid
              match (do
                  let present ← redisGetCall f st1.now st1.mirror key
                  if present then
                    let alloc := createTransport st1 (Option.some sid)
                    let st3 ← setE cfg f alloc.1 sid alloc.2
                    pure (Option.some (st3, alloc.2))
                  else
                    pure Option.none : Except String (Option (State × Nat))) with
              | .ok (Option.some r) => .ok (r.1, GetResult.regenerated r.2)
              | .ok Option.none => .ok (st1, GetResult.none)
              | .error _ => .ok (st1, GetResult.none)
            else
              .ok (st1, GetResult.none)

/-- Total runner of `getE`. -/
def getOp (cfg : StoreCfg) (f : MirrorFaults) (st : State) (sessionId : Option String) :
    State × GetResult :=
  match getE cfg f st sessionId with
  | .ok r => r
  | .error _ => (st, GetResult.none)

/-- `size()`: the local LRU's current entry count. -/
def size (st : State) : Nat := st.lru.length

/-- One public registry interaction, for stating whole-trace invariants. -/
inductive Op where
  | opSet (sid : String) (tid : Nat)
  | opGet (sid : Option String)
  | opDelete (sid : String)
  | opClose (tid : Nat)
  | opTick (dt : Nat)
deriving DecidableEq, Repr

/-- Apply one interaction. -/
def step (cfg : StoreCfg) (f : MirrorFaults) (st : State) : Op → State
  | Op.opSet sid tid => setOp cfg f st sid tid
  | Op.opGet sid => (getOp cfg f st sid).1
  | Op.opDelete sid => removeOp cfg f st sid
  | Op.opClose tid => fireClose cfg f st tid
  | Op.opTick dt => { st with now := st.now + dt }

/-- Apply a sequence of interactions. -/
def run (cfg : StoreCfg) (f : MirrorFaults) (st : State) (ops : List Op) : State :=
  ops.foldl (step cfg f) st

end TransportStore

/-- The empty registry state at time 0. -/
def initState : State :=
  { now := 0, lru := [], transports := [], nextTid := 0, mirror := [], events := [] }

/-- How many times an entry for `sid` was actually removed from the local
cache (deletions that found the entry present), read off the event log. -/
def countTrueDeletes (evs : List Event) (sid : String) : Nat :=
  (evs.filter (fun e => e == Event.localDelete sid true)).length

deriving instance DecidableEq for Except

section Lemmas

/-- Head hit of the association-list lookup. -/
theorem lruFind_cons_self (k : String) (e : Entry) (rest : List (String × Entry)) :
    lruFind ((k, e) :: rest) k = Option.some e := by
  unfold lruFind
  rw [List.find?_cons_of_pos _ (by simp)]
  rfl

/-- Looking up a key in a list it was just filtered out of misses. -/
theorem lruFind_lruRemoveKey_self (l : List (String × Entry)) (k : String) :
    lruFind (lruRemoveKey l k) k = Option.none := by
  induction l with
  | nil => rfl
  | cons a as ih =>
      by_cases hk : a.1 = k
      · simp only [lruRemoveKey, List.filter_cons, hk] at ih ⊢
        simpa using ih
      · simp only [lruRemoveKey, List.filter_cons, hk] at ih ⊢
        simp only [bne_iff_ne, ne_eq, hk, not_false_eq_true, if_pos]
        simp only [lruFind, List.find?_cons] at ih ⊢
        have : ((a.1 == k) : Bool) = false := by
          simp [hk]
        rw [this]
        exact ih

/-- Removing a key only shrinks the list. -/
theorem lruRemoveKey_length_le (l : List (String × Entry)) (k : String) :
    (lruRemoveKey l k).length ≤ l.length :=
  List.length_filter_le _ _

/-- Removing a key that is present strictly shrinks the list. -/
theorem lruRemoveKey_length_lt (l : List (String × Entry)) (k : String)
    (h : (lruFind l k).isSome) : (lruRemoveKey l k).length < l.length := by
  induction l with
  | nil => simp [lruFind] at h
  | cons a as ih =>
      by_cases hk : a.1 = k
      · have : (lruRemoveKey (a :: as) k).length = (lruRemoveKey as k).length := by
          simp [lruRemoveKey, List.filter_cons, hk]
        rw [this]
        exact Nat.lt_succ_of_le (lruRemoveKey_length_le as k)
      · have hh : (lruFind as k).isSome := by
          simpa [lruFind, List.find?_cons, hk] using h
        have := ih hh
        simp only [lruRemoveKey, List.filter_cons, List.length_cons]
        simp only [hk, not_false_eq_true, bne_iff_ne, ne_eq, if_pos]
        simpa [lruRemoveKey] using Nat.succ_lt_succ this

/-- `lruSet` keeps the size within a capacity the input already respects. -/
theorem lruSet_length_le (max now : Nat) (l : List (String × Entry)) (k : String)
    (tid : Nat) (h : l.length ≤ max) : (lruSet max now l k tid).length ≤ max := by
  have hr : (lruRemoveKey l k).length ≤ l.length := lruRemoveKey_length_le l k
  simp only [lruSet]
  split
  · rename_i hlt
    simp only [List.length_dropLast, List.length_cons] at hlt ⊢
    omega
  · rename_i hlt
    simp only [List.length_cons, Nat.not_lt] at hlt ⊢
    omega

/-- After `lruSet`, the key is found with a fresh start (capacity permitting). -/
theorem lruFind_lruSet_self (max now : Nat) (l : List (String × Entry)) (k : String)
    (tid : Nat) (hmax : 0 < max) :
    lruFind (lruSet max now l k tid) k = Option.some (Entry.mk tid now) := by
  simp only [lruSet]
  rcases hrest : lruRemoveKey l k with _ | ⟨b, bs⟩ <;> split
  · rename_i hlt
    exfalso
    simp only [List.length_cons, List.length_nil] at hlt
    omega
  · exact lruFind_cons_self k _ []
  · have hdrop : ((k, Entry.mk tid now) :: b :: bs).dropLast
        = (k, Entry.mk tid now) :: (b :: bs).dropLast := rfl
    rw [hdrop]
    exact lruFind_cons_self k _ _
  · exact lruFind_cons_self k _ _

/-- After `lruSet`, the key is either found with a fresh start or (capacity
zero) not at all. -/
theorem lruFind_lruSet_self_or (max now : Nat) (l : List (String × Entry)) (k : String)
    (tid : Nat) :
    lruFind (lruSet max now l k tid) k = Option.some (Entry.mk tid now) ∨
      lruFind (lruSet max now l k tid) k = Option.none := by
  simp only [lruSet]
  rcases hrest : lruRemoveKey l k with _ | ⟨b, bs⟩ <;> split
  · right
    rfl
  · left
    exact lruFind_cons_self k _ []
  · left
    have hdrop : ((k, Entry.mk tid now) :: b :: bs).dropLast
        = (k, Entry.mk tid now) :: (b :: bs).dropLast := rfl
    rw [hdrop]
    exact lruFind_cons_self k _ _
  · left
    exact lruFind_cons_self k _ _

/-- A read of an absent key changes nothing. -/
theorem lruGet_miss (ttl : Nat) (upd : Bool) (now : Nat) (l : List (String × Entry))
    (k : String) (hf : lruFind l k = Option.none) :
    lruGet ttl upd now l k = (l, Option.none) := by
  unfold lruGet
  rw [hf]

/-- A read of a stale entry deletes it and misses. -/
theorem lruGet_stale (ttl : Nat) (upd : Bool) (now : Nat) (l : List (String × Entry))
    (k : String) (e : Entry) (hf : lruFind l k = Option.some e)
    (hstale : e.start + ttl < now) :
    lruGet ttl upd now l k = (lruRemoveKey l k, Option.none) := by
  unfold lruGet
  rw [hf]
  simp only [if_pos hstale]

/-- A read of a live entry refreshes recency (and, when sliding, its start). -/
theorem lruGet_hit (ttl : Nat) (upd : Bool) (now : Nat) (l : List (String × Entry))
    (k : String) (e : Entry) (hf : lruFind l k = Option.some e)
    (hlive : ¬ e.start + ttl < now) :
    lruGet ttl upd now l k =
      ((k, Entry.mk e.tid (if upd then now else e.start)) :: lruRemoveKey l k,
        Option.some e.tid) := by
  unfold lruGet
  rw [hf]
  simp only [if_neg hlive]

/-- A read never grows the cache. -/
theorem lruGet_length_le (ttl : Nat) (upd : Bool) (now : Nat) (l : List (String × Entry))
    (k : String) : ((lruGet ttl upd now l k).1).length ≤ l.length := by
  rcases hf : lruFind l k with _ | e
  · rw [lruGet_miss ttl upd now l k hf]
  · by_cases hstale : e.start + ttl < now
    · rw [lruGet_stale ttl upd now l k e hf hstale]
      exact lruRemoveKey_length_le l k
    · rw [lruGet_hit ttl upd now l k e hf hstale]
      have := lruRemoveKey_length_lt l k (by rw [hf]; rfl)
      simp only [List.length_cons]
      omega

/-- Heap read of a key just written. -/
theorem heapFind_heapSet_self (h : List (Nat × Transport)) (tid : Nat) (t : Transport) :
    heapFind (heapSet h tid t) tid = Option.some t := by
  unfold heapFind heapSet
  rw [List.find?_cons_of_pos _ (by simp)]
  rfl

/-- Heap read of a different key is unaffected by a write. -/
theorem heapFind_heapSet_ne (h : List (Nat × Transport)) (tid : Nat) (t : Transport)
    (tid' : Nat) (hne : tid' ≠ tid) :
    heapFind (heapSet h tid t) tid' = heapFind h tid' := by
  unfold heapFind heapSet
  rw [List.find?_cons_of_neg _ (by simp; exact fun hh => hne hh.symm)]
  congr 1
  induction h with
  | nil => rfl
  | cons a as ih =>
      by_cases ha : a.1 = tid
      · rw [List.filter_cons_of_neg (by simp [ha]), ih,
          List.find?_cons_of_neg _ (by simp [ha]; exact fun hh => hne hh.symm)]
      · rw [List.filter_cons_of_pos (by simp [ha])]
        by_cases hb : a.1 = tid'
        · rw [List.find?_cons_of_pos _ (by simp [hb]),
            List.find?_cons_of_pos _ (by simp [hb])]
        · rw [List.find?_cons_of_neg _ (by simp [hb]), ih,
            List.find?_cons_of_neg _ (by simp [hb])]

/-- After a mirror delete, the key's record is gone, so no presence. -/
theorem mirrorPresent_mirrorErase_self (now : Nat) (m : List (String × Int)) (k : String) :
    mirrorPresent now (mirrorErase m k) k = false := by
  unfold mirrorPresent
  have hfind : (mirrorErase m k).find? (fun p => p.1 == k) = Option.none := by
    induction m with
    | nil => rfl
    | cons a as ih =>
        by_cases ha : a.1 = k
        · rw [show mirrorErase (a :: as) k = mirrorErase as k from
            List.filter_cons_of_neg (by simp [ha])]
          exact ih
        · rw [show mirrorErase (a :: as) k = a :: mirrorErase as k from
            List.filter_cons_of_pos (by simp [ha])]
          rw [List.find?_cons_of_neg _ (by simp [ha])]
          exact ih
  rw [hfind]

/-- After a mirror write, the key's record is present until its expiry. -/
theorem mirrorPresent_mirrorStore_self (now : Nat) (m : List (String × Int)) (k : String)
    (expiry : Int) : mirrorPresent now (mirrorStore m k expiry) k = decide ((now : Int) < expiry) := by
  unfold mirrorPresent mirrorStore
  rw [List.find?_cons_of_pos _ (by simp)]

/-- Full characterization of `set`: it never throws, installs the close
wrapper, refreshes the LRU entry, and mirrors presence exactly when a client
exists, redis mode is on and the client call succeeds. -/
theorem setE_spec (cfg : StoreCfg) (f : MirrorFaults) (st : State) (sid : String)
    (tid : Nat) :
    TransportStore.setE cfg f st sid tid = Except.ok
      { now := st.now
        lru := lruSet cfg.max st.now st.lru sid tid
        transports :=
          match heapFind st.transports tid with
          | Option.some t =>
              heapSet st.transports tid
                ({ t with onclose := CloseHandler.setWrapper t.onclose sid })
          | Option.none => st.transports
        nextTid := st.nextTid
        mirror :=
          if cfg.hasClient ∧ cfg.mode = StoreMode.redis ∧ f.setThrows = false then
            mirrorStore st.mirror (generateRedisKey cfg.keyPre sid)
              ((st.now : Int) + cfg.redisTtlMs.getD (TEN_MINUTES : Int))
          else st.mirror
        events :=
          if cfg.hasClient ∧ cfg.mode = StoreMode.redis ∧ f.setThrows = false then
            st.events ++ [Event.mirrorWrite (generateRedisKey cfg.keyPre sid) "1"
              (cfg.redisTtlMs.getD (TEN_MINUTES : Int))]
          else st.events } := by
  unfold TransportStore.setE redisSetCall
  rcases hh : heapFind st.transports tid with _ | t <;>
    by_cases hc : cfg.hasClient ∧ cfg.mode = StoreMode.redis <;>
    rcases hft : f.setThrows with _ | _ <;>
    simp [hh, hc, hft]

/-- `setOp` in terms of `setE_spec`. -/
theorem setOp_spec (cfg : StoreCfg) (f : MirrorFaults) (st : State) (sid : String)
    (tid : Nat) :
    TransportStore.setOp cfg f st sid tid =
      { now := st.now
        lru := lruSet cfg.max st.now st.lru sid tid
        transports :=
          match heapFind st.transports tid with
          | Option.some t =>
              heapSet st.transports tid
                ({ t with onclose := CloseHandler.setWrapper t.onclose sid })
          | Option.none => st.transports
        nextTid := st.nextTid
        mirror :=
          if cfg.hasClient ∧ cfg.mode = StoreMode.redis ∧ f.setThrows = false then
            mirrorStore st.mirror (generateRedisKey cfg.keyPre sid)
              ((st.now : Int) + cfg.redisTtlMs.getD (TEN_MINUTES : Int))
          else st.mirror
        events :=
          if cfg.hasClient ∧ cfg.mode = StoreMode.redis ∧ f.setThrows = false then
            st.events ++ [Event.mirrorWrite (generateRedisKey cfg.keyPre sid) "1"
              (cfg.redisTtlMs.getD (TEN_MINUTES : Int))]
          else st.events } := by
  unfold TransportStore.setOp
  rw [setE_spec]

/-- Full characterization of `remove` (the public `delete`): it never throws,
removes the local entry, logs the deletion, and clears the mirror record
exactly when a client exists, redis mode is on and the delete succeeds. -/
theorem removeE_spec (cfg : StoreCfg) (f : MirrorFaults) (st : State) (sid : String) :
    TransportStore.removeE cfg f st sid = Except.ok
      { now := st.now
        lru := lruRemoveKey st.lru sid
        transports := st.transports
        nextTid := st.nextTid
        mirror :=
          if cfg.hasClient ∧ cfg.mode = StoreMode.redis ∧ f.delThrows = false then
            mirrorErase st.mirror (generateRedisKey cfg.keyPre sid)
          else st.mirror
        events :=
          (st.events ++ [Event.localDelete sid ((lruFind st.lru sid).isSome)]) ++
            (if cfg.hasClient ∧ cfg.mode = StoreMode.redis ∧ f.delThrows = false then
              [Event.mirrorDel (generateRedisKey cfg.keyPre sid)]
            else []) } := by
  unfold TransportStore.removeE redisDelCall
  by_cases hc : cfg.hasClient ∧ cfg.mode = StoreMode.redis <;>
    rcases hft : f.delThrows with _ | _ <;>
    simp [hc, hft]

/-- `removeOp` in terms of `removeE_spec`. -/
theorem removeOp_spec (cfg : StoreCfg) (f : MirrorFaults) (st : State) (sid : String) :
    TransportStore.removeOp cfg f st sid =
      { now := st.now
        lru := lruRemoveKey st.lru sid
        transports := st.transports
        nextTid := st.nextTid
        mirror :=
          if cfg.hasClient ∧ cfg.mode = StoreMode.redis ∧ f.delThrows = false then
            mirrorErase st.mirror (generateRedisKey cfg.keyPre sid)
          else st.mirror
        events :=
          (st.events ++ [Event.localDelete sid ((lruFind st.lru sid).isSome)]) ++
            (if cfg.hasClient ∧ cfg.mode = StoreMode.redis ∧ f.delThrows = false then
              [Event.mirrorDel (generateRedisKey cfg.keyPre sid)]
            else []) } := by
  unfold TransportStore.removeOp
  rw [removeE_spec]

/-- `get` without a session id is a plain miss. -/
theorem getE_no_id (cfg : StoreCfg) (f : MirrorFaults) (st : State) :
    TransportStore.getE cfg f st Option.none = Except.ok (st, GetResult.none) := rfl

/-- `get` with the (JavaScript-falsy) empty id is a plain miss. -/
theorem getE_empty_id (cfg : StoreCfg) (f : MirrorFaults) (st : State) :
    TransportStore.getE cfg f st (Option.some "") = Except.ok (st, GetResult.none) := by
  unfold TransportStore.getE
  dsimp only
  rw [if_pos rfl]

/-- `Except` monad reduction used when computing through `get`'s `try` body. -/
theorem except_bind_ok {α β : Type} (a : α) (k : α → Except String β) :
    (Except.ok a >>= k) = k a := rfl

/-- `Except` monad reduction: a thrown value short-circuits the `try` body. -/
theorem except_bind_error {α β : Type} (e : String) (k : α → Except String β) :
    ((Except.error e : Except String α) >>= k) = Except.error e := rfl

/-- `Except` functor reduction. -/
theorem except_map_ok {α β : Type} (g : α → β) (a : α) :
    (g <$> (Except.ok a : Except String α)) = Except.ok (g a) := rfl

/-- `Except` pure reduction. -/
theorem except_pure_eq {α : Type} (a : α) :
    (pure a : Except String α) = Except.ok a := rfl

/-- A local LRU hit short-circuits `get`. -/
theorem getE_hit (cfg : StoreCfg) (f : MirrorFaults) (st : State) (sid : String)
    (lru1 : List (String × Entry)) (tid : Nat) (hsid : sid ≠ "")
    (hg : lruGet cfg.ttl cfg.updateAgeOnGet st.now st.lru sid = (lru1, Option.some tid)) :
    TransportStore.getE cfg f st (Option.some sid) =
      Except.ok ({ st with lru := lru1 }, GetResult.existing tid) := by
  unfold TransportStore.getE
  dsimp only
  rw [if_neg hsid, hg]

/-- A local miss without an active mirror is a plain miss. -/
theorem getE_miss_local (cfg : StoreCfg) (f : MirrorFaults) (st : State) (sid : String)
    (lru1 : List (String × Entry)) (hsid : sid ≠ "")
    (hg : lruGet cfg.ttl cfg.updateAgeOnGet st.now st.lru sid = (lru1, Option.none))
    (hc : ¬(cfg.hasClient ∧ cfg.mode = StoreMode.redis)) :
    TransportStore.getE cfg f st (Option.some sid) =
      Except.ok ({ st with lru := lru1 }, GetResult.none) := by
  unfold TransportStore.getE
  dsimp only
  rw [if_neg hsid, hg]
  simp only [if_neg hc]

/-- A local miss whose mirror lookup throws is caught and reported as a
plain miss. -/
theorem getE_miss_throw (cfg : StoreCfg) (f : MirrorFaults) (st : State) (sid : String)
    (lru1 : List (String × Entry)) (hsid : sid ≠ "")
    (hg : lruGet cfg.ttl cfg.updateAgeOnGet st.now st.lru sid = (lru1, Option.none))
    (hgt : f.getThrows = true) :
    TransportStore.getE cfg f st (Option.some sid) =
      Except.ok ({ st with lru := lru1 }, GetResult.none) := by
  unfold TransportStore.getE redisGetCall
  dsimp only
  rw [if_neg hsid, hg]
  by_cases hc : cfg.hasClient ∧ cfg.mode = StoreMode.redis <;>
    simp [hc, hgt, except_bind_error]

/-- A local miss whose mirror record is absent (or expired) is a plain miss. -/
theorem getE_miss_absent (cfg : StoreCfg) (f : MirrorFaults) (st : State) (sid : String)
    (lru1 : List (String × Entry)) (hsid : sid ≠ "")
    (hg : lruGet cfg.ttl cfg.updateAgeOnGet st.now st.lru sid = (lru1, Option.none))
    (hgt : f.getThrows = false)
    (hpres : mirrorPresent st.now st.mirror (generateRedisKey cfg.keyPre sid) = false) :
    TransportStore.getE cfg f st (Option.some sid) =
      Except.ok ({ st with lru := lru1 }, GetResult.none) := by
  unfold TransportStore.getE redisGetCall
  dsimp only
  rw [if_neg hsid, hg]
  by_cases hc : cfg.hasClient ∧ cfg.mode = StoreMode.redis <;>
    simp [hc, hgt, hpres, except_bind_ok, except_pure_eq]

/-- A local miss with a live mirror record rehydrates: synthesize a transport
whose generator is fixed to `sid`, register it via `set`, return
`regenerated`. -/
theorem getE_rehydrate (cfg : StoreCfg) (f : MirrorFaults) (st : State) (sid : String)
    (lru1 : List (String × Entry)) (hsid : sid ≠ "")
    (hg : lruGet cfg.ttl cfg.updateAgeOnGet st.now st.lru sid = (lru1, Option.none))
    (hcl : cfg.hasClient = true) (hmode : cfg.mode = StoreMode.redis)
    (hgt : f.getThrows = false)
    (hpres : mirrorPresent st.now st.mirror (generateRedisKey cfg.keyPre sid) = true) :
    TransportStore.getE cfg f st (Option.some sid) =
      Except.ok
        (TransportStore.setOp cfg f
            (TransportStore.createTransport { st with lru := lru1 } (Option.some sid)).1
            sid
            (TransportStore.createTransport { st with lru := lru1 } (Option.some sid)).2,
          GetResult.regenerated
            (TransportStore.createTransport { st with lru := lru1 } (Option.some sid)).2) := by
  unfold TransportStore.getE redisGetCall
  dsimp only
  rw [if_neg hsid, hg]
  dsimp only
  rw [if_pos (show cfg.hasClient = true ∧ cfg.mode = StoreMode.redis from ⟨hcl, hmode⟩)]
  rw [hgt]
  simp only [Bool.false_eq_true, if_false, except_bind_ok]
  rw [hpres]
  simp only [eq_self_iff_true, if_true, setE_spec, except_bind_ok, except_pure_eq,
    except_map_ok, setOp_spec]

/-- `createTransport` leaves the LRU untouched. -/
theorem createTransport_fst_lru (st : State) (g : Option String) :
    ((TransportStore.createTransport st g).1).lru = st.lru := rfl

/-- `createTransport` leaves the clock untouched. -/
theorem createTransport_fst_now (st : State) (g : Option String) :
    ((TransportStore.createTransport st g).1).now = st.now := rfl

/-- `createTransport` leaves the mirror untouched. -/
theorem createTransport_fst_mirror (st : State) (g : Option String) :
    ((TransportStore.createTransport st g).1).mirror = st.mirror := rfl

/-- `createTransport` leaves the event log untouched. -/
theorem createTransport_fst_events (st : State) (g : Option String) :
    ((TransportStore.createTransport st g).1).events = st.events := rfl

/-- `createTransport` allocates the next heap id. -/
theorem createTransport_snd (st : State) (g : Option String) :
    (TransportStore.createTransport st g).2 = st.nextTid := rfl

/-- `createTransport` stores the fresh transport under the allocated id. -/
theorem createTransport_fst_transports (st : State) (g : Option String) :
    ((TransportStore.createTransport st g).1).transports =
      heapSet st.transports st.nextTid
        { sessionId := Option.none, gen := g,
          onclose := CloseHandler.ctWrapper CloseHandler.noHandler } := rfl

/-- `get` never throws: every branch, the caught ones included, is `.ok`. -/
theorem getE_isOk (cfg : StoreCfg) (f : MirrorFaults) (st : State)
    (sessionId : Option String) :
    ∃ r, TransportStore.getE cfg f st sessionId = Except.ok r := by
  rcases sessionId with _ | sid
  · exact ⟨_, getE_no_id cfg f st⟩
  · by_cases hsid : sid = ""
    · subst hsid
      exact ⟨_, getE_empty_id cfg f st⟩
    · rcases hg : lruGet cfg.ttl cfg.updateAgeOnGet st.now st.lru sid with ⟨lru1, found⟩
      rcases found with _ | tid
      · by_cases hc : cfg.hasClient ∧ cfg.mode = StoreMode.redis
        · rcases hgt : f.getThrows with _ | _
          · rcases hpres : mirrorPresent st.now st.mirror (generateRedisKey cfg.keyPre sid)
              with _ | _
            · exact ⟨_, getE_miss_absent cfg f st sid lru1 hsid hg hgt hpres⟩
            · exact ⟨_, getE_rehydrate cfg f st sid lru1 hsid hg hc.1 hc.2 hgt hpres⟩
          · exact ⟨_, getE_miss_throw cfg f st sid lru1 hsid hg hgt⟩
        · exact ⟨_, getE_miss_local cfg f st sid lru1 hsid hg hc⟩
      · exact ⟨_, getE_hit cfg f st sid lru1 tid hsid hg⟩

/-- `get` respects a capacity bound the input already respects. -/
theorem getOp_lru_le (cfg : StoreCfg) (f : MirrorFaults) (st : State)
    (sessionId : Option String) (h : st.lru.length ≤ cfg.max) :
    ((TransportStore.getOp cfg f st sessionId).1).lru.length ≤ cfg.max := by
  unfold TransportStore.getOp
  rcases sessionId with _ | sid
  · rw [getE_no_id]
    exact h
  · by_cases hsid : sid = ""
    · subst hsid
      rw [getE_empty_id]
      exact h
    · rcases hg : lruGet cfg.ttl cfg.updateAgeOnGet st.now st.lru sid with ⟨lru1, found⟩
      have hlen : lru1.length ≤ st.lru.length := by
        have := lruGet_length_le cfg.ttl cfg.updateAgeOnGet st.now st.lru sid
        rw [hg] at this
        exact this
      rcases found with _ | tid
      · by_cases hc : cfg.hasClient ∧ cfg.mode = StoreMode.redis
        · rcases hgt : f.getThrows with _ | _
          · rcases hpres : mirrorPresent st.now st.mirror (generateRedisKey cfg.keyPre sid)
              with _ | _
            · rw [getE_miss_absent cfg f st sid lru1 hsid hg hgt hpres]
              exact le_trans hlen h
            · rw [getE_rehydrate cfg f st sid lru1 hsid hg hc.1 hc.2 hgt hpres]
              dsimp only
              rw [setOp_spec]
              dsimp only
              rw [createTransport_fst_lru]
              exact lruSet_length_le _ _ _ _ _ (le_trans hlen h)
          · rw [getE_miss_throw cfg f st sid lru1 hsid hg hgt]
            exact le_trans hlen h
        · rw [getE_miss_local cfg f st sid lru1 hsid hg hc]
          exact le_trans hlen h
      · rw [getE_hit cfg f st sid lru1 tid hsid hg]
        exact le_trans hlen h

/-- Firing a close-handler chain never grows the LRU. -/
theorem fireHandler_lru_le (cfg : StoreCfg) (f : MirrorFaults) (tid : Nat) (st : State)
    (h : CloseHandler) :
    ((TransportStore.fireHandler cfg f tid st h).lru).length ≤ st.lru.length := by
  induction h with
  | noHandler => exact le_refl _
  | user tag => exact le_refl _
  | setWrapper prev sid ih =>
      unfold TransportStore.fireHandler
      rw [removeOp_spec]
      exact le_trans (lruRemoveKey_length_le _ _) ih
  | ctWrapper prev ih =>
      unfold TransportStore.fireHandler
      dsimp only
      rcases hhf : heapFind (TransportStore.fireHandler cfg f tid st prev).transports tid
        with _ | t
      · exact ih
      · dsimp only
        rcases hs : t.sessionId with _ | sid
        · exact ih
        · dsimp only
          rw [removeOp_spec]
          exact le_trans (lruRemoveKey_length_le _ _) ih

/-- One registry interaction respects a capacity bound the input respects. -/
theorem step_lru_le (cfg : StoreCfg) (f : MirrorFaults) (st : State) (op : TransportStore.Op)
    (h : st.lru.length ≤ cfg.max) :
    ((TransportStore.step cfg f st op).lru).length ≤ cfg.max := by
  rcases op with ⟨sid, tid⟩ | sid | sid | tid | dt
  · show (TransportStore.setOp cfg f st sid tid).lru.length ≤ cfg.max
    rw [setOp_spec]
    exact lruSet_length_le _ _ _ _ _ h
  · exact getOp_lru_le cfg f st sid h
  · show (TransportStore.removeOp cfg f st sid).lru.length ≤ cfg.max
    rw [removeOp_spec]
    exact le_trans (lruRemoveKey_length_le _ _) h
  · show (TransportStore.fireClose cfg f st tid).lru.length ≤ cfg.max
    unfold TransportStore.fireClose
    rcases hhf : heapFind st.transports tid with _ | t
    · exact h
    · exact le_trans (fireHandler_lru_le cfg f tid st t.onclose) h
  · exact h

/-- A whole interaction sequence respects a capacity bound the initial state
respects. -/
theorem run_lru_le (cfg : StoreCfg) (f : MirrorFaults) (st : State)
    (ops : List TransportStore.Op) (h : st.lru.length ≤ cfg.max) :
    ((TransportStore.run cfg f st ops).lru).length ≤ cfg.max := by
  induction ops generalizing st with
  | nil => exact h
  | cons op rest ih =>
      exact ih (TransportStore.step cfg f st op) (step_lru_le cfg f st op h)

end Lemmas

/-- C4: for every (nonempty) session id and handle, `set(id,h)` immediately
followed by `get(id)` — same instant, capacity available so no eviction
intervenes — returns `existing(h)` with the very same handle. -/
theorem claim_C4 (cfg : StoreCfg) (f : MirrorFaults) (st : State) (sid : String)
    (tid : Nat) (hmax : 0 < cfg.max) (hsid : sid ≠ "") :
    (TransportStore.getOp cfg f (TransportStore.setOp cfg f st sid tid)
      (Option.some sid)).2 = GetResult.existing tid := by
  have hlru : (TransportStore.setOp cfg f st sid tid).lru
      = lruSet cfg.max st.now st.lru sid tid := by
    rw [setOp_spec]
  have hnow : (TransportStore.setOp cfg f st sid tid).now = st.now := by
    rw [setOp_spec]
  have hfind : lruFind (TransportStore.setOp cfg f st sid tid).lru sid
      = Option.some (Entry.mk tid st.now) := by
    rw [hlru]
    exact lruFind_lruSet_self cfg.max st.now st.lru sid tid hmax
  have hlive : ¬ (Entry.mk tid st.now).start + cfg.ttl
      < (TransportStore.setOp cfg f st sid tid).now := by
    rw [hnow]
    exact Nat.not_lt.mpr (Nat.le_add_right _ _)
  have hg := lruGet_hit cfg.ttl cfg.updateAgeOnGet
    (TransportStore.setOp cfg f st sid tid).now
    (TransportStore.setOp cfg f st sid tid).lru sid (Entry.mk tid st.now) hfind hlive
  unfold TransportStore.getOp
  rw [getE_hit cfg f (TransportStore.setOp cfg f st sid tid) sid _ tid hsid hg]

/-- C4 witness: concrete run of `set` then `get` in a default memory store. -/
theorem claim_C4_witness :
    (TransportStore.getOp
      { mode := StoreMode.memory, max := 20, ttl := 600000, updateAgeOnGet := true,
        redisTtlMs := none, keyPre := none, hasClient := false } noFaults
      (TransportStore.setOp
        { mode := StoreMode.memory, max := 20, ttl := 600000, updateAgeOnGet := true,
          redisTtlMs := none, keyPre := none, hasClient := false } noFaults
        initState "s1" 0)
      (Option.some "s1")).2 = GetResult.existing 0 :=
  claim_C4
    { mode := StoreMode.memory, max := 20, ttl := 600000, updateAgeOnGet := true,
      redisTtlMs := none, keyPre := none, hasClient := false } noFaults
    initState "s1" 0 (by decide) (by decide)

/-- C3: the local cache never exceeds the configured capacity under any
interaction sequence (eviction removes the least recently used entry,
irrespective of ttl), and concretely with capacity 2:
`set a; set b; get a; set c` evicts `b` — `get b` is `none` while `get a`
and `get c` are `existing`. -/
theorem claim_C3 (cfg : StoreCfg) (f : MirrorFaults) (st : State)
    (ops : List TransportStore.Op) (h : st.lru.length ≤ cfg.max) :
    (TransportStore.run cfg f st ops).lru.length ≤ cfg.max ∧
    ((TransportStore.getOp
        { mode := StoreMode.memory, max := 2, ttl := 100, updateAgeOnGet := true,
          redisTtlMs := none, keyPre := none, hasClient := false } noFaults
        (TransportStore.run
          { mode := StoreMode.memory, max := 2, ttl := 100, updateAgeOnGet := true,
            redisTtlMs := none, keyPre := none, hasClient := false } noFaults initState
          [TransportStore.Op.opSet "a" 1, TransportStore.Op.opSet "b" 2,
            TransportStore.Op.opGet (Option.some "a"), TransportStore.Op.opSet "c" 3])
        (Option.some "b")).2 = GetResult.none ∧
      (TransportStore.getOp
        { mode := StoreMode.memory, max := 2, ttl := 100, updateAgeOnGet := true,
          redisTtlMs := none, keyPre := none, hasClient := false } noFaults
        (TransportStore.run
          { mode := StoreMode.memory, max := 2, ttl := 100, updateAgeOnGet := true,
            redisTtlMs := none, keyPre := none, hasClient := false } noFaults initState
          [TransportStore.Op.opSet "a" 1, TransportStore.Op.opSet "b" 2,
            TransportStore.Op.opGet (Option.some "a"), TransportStore.Op.opSet "c" 3])
        (Option.some "a")).2 = GetResult.existing 1 ∧
      (TransportStore.getOp
        { mode := StoreMode.memory, max := 2, ttl := 100, updateAgeOnGet := true,
          redisTtlMs := none, keyPre := none, hasClient := false } noFaults
        (TransportStore.run
          { mode := StoreMode.memory, max := 2, ttl := 100, updateAgeOnGet := true,
            redisTtlMs := none, keyPre := none, hasClient := false } noFaults initState
          [TransportStore.Op.opSet "a" 1, TransportStore.Op.opSet "b" 2,
            TransportStore.Op.opGet (Option.some "a"), TransportStore.Op.opSet "c" 3])
        (Option.some "c")).2 = GetResult.existing 3) :=
  ⟨run_lru_le cfg f st ops h, by decide⟩

/-- C3 witness: the capacity bound applied to a concrete over-capacity
insertion sequence. -/
theorem claim_C3_witness :
    (TransportStore.run
      { mode := StoreMode.memory, max := 2, ttl := 100, updateAgeOnGet := true,
        redisTtlMs := none, keyPre := none, hasClient := false } noFaults initState
      [TransportStore.Op.opSet "a" 1, TransportStore.Op.opSet "b" 2,
        TransportStore.Op.opSet "c" 3, TransportStore.Op.opSet "d" 4]).lru.length ≤ 2 :=
  (claim_C3
    { mode := StoreMode.memory, max := 2, ttl := 100, updateAgeOnGet := true,
      redisTtlMs := none, keyPre := none, hasClient := false } noFaults initState
    [TransportStore.Op.opSet "a" 1, TransportStore.Op.opSet "b" 2,
      TransportStore.Op.opSet "c" 3, TransportStore.Op.opSet "d" 4] (by decide)).1

/-- C2: whatever the mirror backend does (any combination of throwing
calls), `set`, `get` and `delete` return `.ok` — no exception reaches the
caller; the local cache is updated identically under a faulty and a healthy
backend for `set` and `delete`, and `size()` reflects the local state; a
lookup with no id is the plain `none` outcome, and a lookup for an id absent
from the local cache is `none` whenever the mirror cannot report it present
(backend throwing, in particular). -/
theorem claim_C2 (cfg : StoreCfg) (f : MirrorFaults) (st : State) (sid : String)
    (tid : Nat) (sessionId : Option String) :
    (TransportStore.setE cfg f st sid tid).isOk = true ∧
    (TransportStore.getE cfg f st sessionId).isOk = true ∧
    (TransportStore.removeE cfg f st sid).isOk = true ∧
    (TransportStore.setOp cfg f st sid tid).lru
      = (TransportStore.setOp cfg noFaults st sid tid).lru ∧
    (TransportStore.removeOp cfg f st sid).lru
      = (TransportStore.removeOp cfg noFaults st sid).lru ∧
    TransportStore.size (TransportStore.setOp cfg f st sid tid)
      = (lruSet cfg.max st.now st.lru sid tid).length ∧
    TransportStore.getE cfg f st Option.none = Except.ok (st, GetResult.none) ∧
    (lruFind st.lru sid = Option.none → f.getThrows = true →
      (TransportStore.getOp cfg f st (Option.some sid)).2 = GetResult.none) := by
  refine ⟨?_, ?_, ?_, ?_, ?_, ?_, ?_, ?_⟩
  · rw [setE_spec]
    rfl
  · obtain ⟨r, hr⟩ := getE_isOk cfg f st sessionId
    rw [hr]
    rfl
  · rw [removeE_spec]
    rfl
  · rw [setOp_spec, setOp_spec]
  · rw [removeOp_spec, removeOp_spec]
  · unfold TransportStore.size
    rw [setOp_spec]
  · exact getE_no_id cfg f st
  · intro hfind hgt
    by_cases hsid : sid = ""
    · subst hsid
      unfold TransportStore.getOp
      rw [getE_empty_id]
    · have hg := lruGet_miss cfg.ttl cfg.updateAgeOnGet st.now st.lru sid hfind
      unfold TransportStore.getOp
      rw [getE_miss_throw cfg f st sid st.lru hsid hg hgt]

/-- C2 witness: an all-throwing backend on a mirrored store — `set` then
`get` of an unknown id still behaves, and the problematic lookup is `none`. -/
theorem claim_C2_witness :
    (TransportStore.getOp
      { mode := StoreMode.redis, max := 20, ttl := 600000, updateAgeOnGet := true,
        redisTtlMs := some 100, keyPre := some "test:", hasClient := true } allThrow
      initState (Option.some "ghost")).2 = GetResult.none :=
  (claim_C2
    { mode := StoreMode.redis, max := 20, ttl := 600000, updateAgeOnGet := true,
      redisTtlMs := some 100, keyPre := some "test:", hasClient := true } allThrow
    initState "ghost" 0 (Option.some "ghost")).2.2.2.2.2.2.2 (by decide) (by decide)

/-- C6: expiry is per-entry and lazy.  (a) An entry inserted at `set`-time
and never touched until time `t'` strictly past its start plus the ttl is
reported `none` by `get` (memory mode, so no mirror interferes).  (b) With
sliding expiration on, a successful lookup resets that entry's ttl start to
the time of the read — the full ttl again — and `get` returns `existing`
over exactly that refreshed cache. -/
theorem claim_C6 (cfg : StoreCfg) (f : MirrorFaults) (st : State) (sid : String)
    (tid : Nat) (t' : Nat) (stb : State) (sid2 : String) (l2 : List (String × Entry))
    (tid0 : Nat) (hmode : cfg.mode = StoreMode.memory) (hsid : sid ≠ "")
    (hexp : st.now + cfg.ttl < t') (hupd : cfg.updateAgeOnGet = true)
    (hsid2 : sid2 ≠ "")
    (hg2 : lruGet cfg.ttl cfg.updateAgeOnGet stb.now stb.lru sid2 = (l2, Option.some tid0)) :
    (TransportStore.getOp cfg f
        { TransportStore.setOp cfg f st sid tid with now := t' }
        (Option.some sid)).2 = GetResult.none ∧
    lruFind l2 sid2 = Option.some (Entry.mk tid0 stb.now) ∧
    TransportStore.getE cfg f stb (Option.some sid2)
      = Except.ok ({ stb with lru := l2 }, GetResult.existing tid0) := by
  have hnc : ¬(cfg.hasClient ∧ cfg.mode = StoreMode.redis) := by
    rintro ⟨-, hmr⟩
    rw [hmode] at hmr
    exact StoreMode.noConfusion hmr
  refine ⟨?_, ?_, ?_⟩
  · have hlru : ({ TransportStore.setOp cfg f st sid tid with now := t' } : State).lru
        = lruSet cfg.max st.now st.lru sid tid := by
      rw [setOp_spec]
    rcases lruFind_lruSet_self_or cfg.max st.now st.lru sid tid with hfind | hfind
    · have hstale : (Entry.mk tid st.now).start + cfg.ttl < t' := hexp
      have hg := lruGet_stale cfg.ttl cfg.updateAgeOnGet t'
        ({ TransportStore.setOp cfg f st sid tid with now := t' } : State).lru sid
        (Entry.mk tid st.now) (by rw [hlru]; exact hfind) hstale
      unfold TransportStore.getOp
      rw [getE_miss_local cfg f _ sid _ hsid hg hnc]
    · have hg := lruGet_miss cfg.ttl cfg.updateAgeOnGet t'
        ({ TransportStore.setOp cfg f st sid tid with now := t' } : State).lru sid
        (by rw [hlru]; exact hfind)
      unfold TransportStore.getOp
      rw [getE_miss_local cfg f _ sid _ hsid hg hnc]
  · rcases hf : lruFind stb.lru sid2 with _ | e
    · rw [lruGet_miss cfg.ttl cfg.updateAgeOnGet stb.now stb.lru sid2 hf] at hg2
      exact absurd (congrArg Prod.snd hg2) (by simp)
    · by_cases hstale : e.start + cfg.ttl < stb.now
      · rw [lruGet_stale cfg.ttl cfg.updateAgeOnGet stb.now stb.lru sid2 e hf hstale] at hg2
        exact absurd (congrArg Prod.snd hg2) (by simp)
      · rw [lruGet_hit cfg.ttl cfg.updateAgeOnGet stb.now stb.lru sid2 e hf hstale] at hg2
        have h2 : l2 = (sid2, Entry.mk e.tid (if cfg.updateAgeOnGet then stb.now else e.start))
            :: lruRemoveKey stb.lru sid2 := (congrArg Prod.fst hg2).symm
        have htid : e.tid = tid0 := by
          have := congrArg Prod.snd hg2
          simpa using this
        rw [h2, hupd, htid]
        simp only [if_true]
        exact lruFind_cons_self sid2 _ _
  · exact getE_hit cfg f stb sid2 l2 tid0 hsid2 hg2

/-- C6 witness: ttl 100, entry set at time 0, read at 101 is gone; the
sliding part at a concrete refreshed read. -/
theorem claim_C6_witness :
    (TransportStore.getOp
      { mode := StoreMode.memory, max := 2, ttl := 100, updateAgeOnGet := true,
        redisTtlMs := none, keyPre := none, hasClient := false } noFaults
      { TransportStore.setOp
          { mode := StoreMode.memory, max := 2, ttl := 100, updateAgeOnGet := true,
            redisTtlMs := none, keyPre := none, hasClient := false } noFaults
          initState "s" 0 with now := 101 }
      (Option.some "s")).2 = GetResult.none ∧
    lruFind [("s", Entry.mk 0 60)] "s" = Option.some (Entry.mk 0 60) :=
  ⟨(claim_C6
      { mode := StoreMode.memory, max := 2, ttl := 100, updateAgeOnGet := true,
        redisTtlMs := none, keyPre := none, hasClient := false } noFaults
      initState "s" 0 101
      { now := 60, lru := [("s", Entry.mk 0 0)], transports := [], nextTid := 1,
        mirror := [], events := [] } "s" [("s", Entry.mk 0 60)] 0
      (by decide) (by decide) (by decide) (by decide) (by decide) (by decide)).1,
    (claim_C6
      { mode := StoreMode.memory, max := 2, ttl := 100, updateAgeOnGet := true,
        redisTtlMs := none, keyPre := none, hasClient := false } noFaults
      initState "s" 0 101
      { now := 60, lru := [("s", Entry.mk 0 0)], transports := [], nextTid := 1,
        mirror := [], events := [] } "s" [("s", Entry.mk 0 60)] 0
      (by decide) (by decide) (by decide) (by decide) (by decide) (by decide)).2.1⟩

/-- C5: in redis mode with a working client, every `set(id,h)` issues
exactly one presence write — for the key built from the normalized prefix
and the id, with the constant value `'1'` and a `PX` expiry of the
configured `ttlMs` — and records the key until that expiry; the key drops a
single trailing colon of the configured prefix, and the default prefix is
`mcp:session`; concretely, a store built from redis options with prefix
`test:` and ttlMs 100 writes `test:sess` with a 100 ms expiry on
`set('sess', h)`. -/
theorem claim_C5 (cfg : StoreCfg) (f : MirrorFaults) (st : State) (sid : String)
    (tid : Nat) (hcl : cfg.hasClient = true) (hmode : cfg.mode = StoreMode.redis)
    (hok : f.setThrows = false) :
    (TransportStore.setOp cfg f st sid tid).events
      = st.events ++ [Event.mirrorWrite (generateRedisKey cfg.keyPre sid) "1"
          (cfg.redisTtlMs.getD (TEN_MINUTES : Int))] ∧
    (TransportStore.setOp cfg f st sid tid).mirror
      = mirrorStore st.mirror (generateRedisKey cfg.keyPre sid)
          ((st.now : Int) + cfg.redisTtlMs.getD (TEN_MINUTES : Int)) ∧
    generateRedisKey (Option.some "test:") "sess" = "test:sess" ∧
    generateRedisKey Option.none "sess" = "mcp:session:sess" ∧
    createTransportStoreE
        { type := "redis", ttlMs := some 100, keyPre := some "test:",
          connection := some (RedisConnection.url "redis://localhost:6379") } false
      = Except.ok
        { mode := StoreMode.redis, max := 20, ttl := 600000, updateAgeOnGet := true,
          redisTtlMs := some 100, keyPre := some "test:", hasClient := true } ∧
    (TransportStore.setOp
        { mode := StoreMode.redis, max := 20, ttl := 600000, updateAgeOnGet := true,
          redisTtlMs := some 100, keyPre := some "test:", hasClient := true } noFaults
        initState "sess" 0).events = [Event.mirrorWrite "test:sess" "1" 100] := by
  have hcond : cfg.hasClient = true ∧ cfg.mode = StoreMode.redis ∧ f.setThrows = false :=
    ⟨hcl, hmode, hok⟩
  refine ⟨?_, ?_, by decide, by decide, by decide, by decide⟩
  · rw [setOp_spec]
    simp only [if_pos hcond]
  · rw [setOp_spec]
    simp only [if_pos hcond]

/-- C5 witness: the general mirror-write clause at the concrete test
configuration. -/
theorem claim_C5_witness :
    (TransportStore.setOp
      { mode := StoreMode.redis, max := 20, ttl := 600000, updateAgeOnGet := true,
        redisTtlMs := some 100, keyPre := some "test:", hasClient := true } noFaults
      initState "sess" 0).mirror = mirrorStore [] "test:sess" 100 :=
  ((claim_C5
    { mode := StoreMode.redis, max := 20, ttl := 600000, updateAgeOnGet := true,
      redisTtlMs := some 100, keyPre := some "test:", hasClient := true } noFaults
    initState "sess" 0 (by decide) (by decide) (by decide)).2.1).trans (by decide)

/-- C7: `createTransportStore` throws exactly when schema validation fails
(unknown discriminator; in memory mode a non-positive `max` or `ttlMs`);
in redis mode, a missing connection or a failing client constructor does not
throw — the store is built with no client, i.e. degraded to local-only. -/
theorem claim_C7 (raw : RawOptions) (ctorFails : Bool) :
    ((createTransportStoreE raw ctorFails).isOk = true
      ↔ (parseTransportOptions raw).isOk = true) ∧
    (raw.type = "redis" →
      createTransportStoreE raw ctorFails
        = Except.ok (resolveStore (ParsedOptions.redis raw.connection raw.ttlMs raw.keyPre)
            ctorFails) ∧
      (raw.connection = Option.none ∨ ctorFails = true →
        (resolveStore (ParsedOptions.redis raw.connection raw.ttlMs raw.keyPre)
          ctorFails).hasClient = false)) ∧
    (createTransportStoreE { type := "invalid" } false).isOk = false ∧
    (createTransportStoreE { type := "memory", max := some (-5) } false).isOk = false ∧
    (createTransportStoreE { type := "memory", ttlMs := some 0 } false).isOk = false ∧
    (createTransportStoreE { type := "redis" } false).isOk = true := by
  refine ⟨?_, ?_, by decide, by decide, by decide, by decide⟩
  · unfold createTransportStoreE
    rcases hp : parseTransportOptions raw with e | p <;>
      simp [Except.map, Except.isOk, Except.toBool]
  · intro ht
    have hmem : ¬ raw.type = "memory" := by
      rw [ht]
      decide
    have hp : parseTransportOptions raw
        = Except.ok (ParsedOptions.redis raw.connection raw.ttlMs raw.keyPre) := by
      unfold parseTransportOptions
      rw [if_neg hmem, if_pos ht]
    refine ⟨?_, ?_⟩
    · unfold createTransportStoreE
      rw [hp]
      rfl
    · rintro (hconn | hfail)
      · rw [hconn]
        rfl
      · rw [hfail]
        unfold resolveStore
        rcases raw.connection with _ | c <;> rfl

/-- C7 witness: redis mode without connection info builds a degraded,
client-less store rather than throwing. -/
theorem claim_C7_witness :
    createTransportStoreE { type := "redis" } false
      = Except.ok (resolveStore (ParsedOptions.redis Option.none Option.none Option.none)
          false) ∧
    (resolveStore (ParsedOptions.redis Option.none Option.none Option.none)
      false).hasClient = false :=
  ⟨((claim_C7 { type := "redis" } false).2.1 (by decide)).1,
    ((claim_C7 { type := "redis" } false).2.1 (by decide)).2 (Or.inl (by decide))⟩

/-- C1: on a local miss in redis mode with a working client, if the mirror
reports the prefixed key present, `get(id)` synthesizes a transport whose id
generator is fixed to return the very same `id`, registers it locally via
`set` (whose side effect re-writes the presence record, refreshing its ttl),
and returns `regenerated`; if the record is absent, or the mirror check
throws, the outcome is `none`, exactly like a plain miss. -/
theorem claim_C1 (cfg : StoreCfg) (f : MirrorFaults) (st : State) (sid : String)
    (lru1 : List (String × Entry)) (st' : State)
    (hsid : sid ≠ "") (hmax : 0 < cfg.max)
    (hcl : cfg.hasClient = true) (hmode : cfg.mode = StoreMode.redis)
    (hg : lruGet cfg.ttl cfg.updateAgeOnGet st.now st.lru sid = (lru1, Option.none))
    (hst' : st' = TransportStore.setOp cfg f
        (TransportStore.createTransport { st with lru := lru1 } (Option.some sid)).1 sid
        (TransportStore.createTransport { st with lru := lru1 } (Option.some sid)).2) :
    (f.getThrows = false → f.setThrows = false →
      mirrorPresent st.now st.mirror (generateRedisKey cfg.keyPre sid) = true →
      TransportStore.getE cfg f st (Option.some sid)
          = Except.ok (st', GetResult.regenerated st.nextTid) ∧
        heapFind st'.transports st.nextTid
          = Option.some (Transport.mk Option.none (Option.some sid)
              (CloseHandler.setWrapper (CloseHandler.ctWrapper CloseHandler.noHandler) sid)) ∧
        lruFind st'.lru sid = Option.some (Entry.mk st.nextTid st.now) ∧
        st'.events = st.events ++ [Event.mirrorWrite (generateRedisKey cfg.keyPre sid) "1"
            (cfg.redisTtlMs.getD (TEN_MINUTES : Int))]) ∧
    (f.getThrows = false →
      mirrorPresent st.now st.mirror (generateRedisKey cfg.keyPre sid) = false →
      (TransportStore.getOp cfg f st (Option.some sid)).2 = GetResult.none) ∧
    (f.getThrows = true →
      (TransportStore.getOp cfg f st (Option.some sid)).2 = GetResult.none) := by
  refine ⟨?_, ?_, ?_⟩
  · intro hgt hset hpres
    subst hst'
    refine ⟨?_, ?_, ?_, ?_⟩
    · rw [getE_rehydrate cfg f st sid lru1 hsid hg hcl hmode hgt hpres]
      rfl
    · rw [setOp_spec]
      dsimp only
      rw [createTransport_fst_transports, createTransport_snd]
      have hself := heapFind_heapSet_self
        (({ st with lru := lru1 } : State)).transports
        (({ st with lru := lru1 } : State)).nextTid
        { sessionId := Option.none, gen := Option.some sid,
          onclose := CloseHandler.ctWrapper CloseHandler.noHandler }
      rw [hself]
      exact heapFind_heapSet_self _ _ _
    · rw [setOp_spec]
      dsimp only
      rw [createTransport_fst_lru, createTransport_fst_now, createTransport_snd]
      exact lruFind_lruSet_self cfg.max st.now lru1 sid st.nextTid hmax
    · rw [setOp_spec]
      dsimp only
      rw [if_pos ⟨hcl, hmode, hset⟩]
      rw [createTransport_fst_events]
  · intro hgt hpres
    unfold TransportStore.getOp
    rw [getE_miss_absent cfg f st sid lru1 hsid hg hgt hpres]
  · intro hgt
    unfold TransportStore.getOp
    rw [getE_miss_throw cfg f st sid lru1 hsid hg hgt]

/-- C1 witness: a fresh process whose mirror holds `test:sess` rehydrates
the id `sess` into its local cache. -/
theorem claim_C1_witness :
    lruFind (TransportStore.setOp
      { mode := StoreMode.redis, max := 20, ttl := 600000, updateAgeOnGet := true,
        redisTtlMs := some 100, keyPre := some "test:", hasClient := true } noFaults
      (TransportStore.createTransport
        { now := 0, lru := ([] : List (String × Entry)), transports := [], nextTid := 0,
          mirror := [("test:sess", 50)], events := [] } (Option.some "sess")).1 "sess"
      (TransportStore.createTransport
        { now := 0, lru := ([] : List (String × Entry)), transports := [], nextTid := 0,
          mirror := [("test:sess", 50)], events := [] } (Option.some "sess")).2).lru "sess"
      = Option.some (Entry.mk 0 0) :=
  ((claim_C1
    { mode := StoreMode.redis, max := 20, ttl := 600000, updateAgeOnGet := true,
      redisTtlMs := some 100, keyPre := some "test:", hasClient := true } noFaults
    { now := 0, lru := [], transports := [], nextTid := 0,
      mirror := [("test:sess", 50)], events := [] } "sess" [] _
    (by decide) (by decide) (by decide) (by decide) (by decide) rfl).1
    (by decide) (by decide) (by decide)).2.2.1

/-- Counting is additive over the event log. -/
theorem countTrueDeletes_append (a b : List Event) (sid : String) :
    countTrueDeletes (a ++ b) sid = countTrueDeletes a sid + countTrueDeletes b sid := by
  simp [countTrueDeletes, List.filter_append]

/-- A `userClose` record is not a deletion. -/
theorem countTrueDeletes_userClose (tag : Nat) (sid : String) :
    countTrueDeletes [Event.userClose tag] sid = 0 := by
  simp [countTrueDeletes]

/-- The deletion that found the entry counts once. -/
theorem countTrueDeletes_localDelete_true (sid : String) :
    countTrueDeletes [Event.localDelete sid true] sid = 1 := by
  simp [countTrueDeletes]

/-- The idempotent re-deletion (entry already absent) counts zero. -/
theorem countTrueDeletes_localDelete_false (sid : String) :
    countTrueDeletes [Event.localDelete sid false] sid = 0 := by
  simp [countTrueDeletes]

/-- The optional mirror-delete record is not a local deletion. -/
theorem countTrueDeletes_mirrorDel_if (c : Prop) [Decidable c] (k : String) (sid : String) :
    countTrueDeletes (if c then [Event.mirrorDel k] else []) sid = 0 := by
  split <;> simp [countTrueDeletes]

/-- Firing the close wrapper `set` installs over an opaque prior behaviour
runs that behaviour first, then removes the registration-time id. -/
theorem fireClose_setWrapper_user (cfg : StoreCfg) (f : MirrorFaults) (st : State)
    (tid : Nat) (sid : String) (tag : Nat) (tr : Transport)
    (hh : heapFind st.transports tid = Option.some tr)
    (hoc : tr.onclose = CloseHandler.setWrapper (CloseHandler.user tag) sid) :
    TransportStore.fireClose cfg f st tid
      = TransportStore.removeOp cfg f
          { st with events := st.events ++ [Event.userClose tag] } sid := by
  unfold TransportStore.fireClose
  rw [hh]
  dsimp only
  rw [hoc]
  simp only [TransportStore.fireHandler]

/-- Firing the close wrapper `set` installs over an absent prior behaviour
just removes the registration-time id. -/
theorem fireClose_setWrapper_noHandler (cfg : StoreCfg) (f : MirrorFaults) (st : State)
    (tid : Nat) (sid : String) (tr : Transport)
    (hh : heapFind st.transports tid = Option.some tr)
    (hoc : tr.onclose = CloseHandler.setWrapper CloseHandler.noHandler sid) :
    TransportStore.fireClose cfg f st tid = TransportStore.removeOp cfg f st sid := by
  unfold TransportStore.fireClose
  rw [hh]
  dsimp only
  rw [hoc]
  simp only [TransportStore.fireHandler]

/-- C8: registering a handle wraps its close notification; invoking it runs
the previously installed behaviour first and then removes the entry (and, in
mirrored mode with a working delete, clears the presence record); firing the
notification a second time re-runs the chain but the removal is idempotent —
across both firings exactly one deletion actually removes an entry. -/
theorem claim_C8 (cfg : StoreCfg) (f : MirrorFaults) (st : State) (sid : String)
    (tid : Nat) (tag : Nat) (t0 : Transport) (st1 st2 st3 : State)
    (hmax : 0 < cfg.max)
    (hh : heapFind st.transports tid = Option.some t0)
    (hoc : t0.onclose = CloseHandler.user tag)
    (h1 : st1 = TransportStore.setOp cfg f st sid tid)
    (h2 : st2 = TransportStore.fireClose cfg f st1 tid)
    (h3 : st3 = TransportStore.fireClose cfg f st2 tid) :
    heapFind st1.transports tid
      = Option.some (Transport.mk t0.sessionId t0.gen
          (CloseHandler.setWrapper (CloseHandler.user tag) sid)) ∧
    st2 = TransportStore.removeOp cfg f
        { st1 with events := st1.events ++ [Event.userClose tag] } sid ∧
    lruFind st2.lru sid = Option.none ∧
    lruFind st3.lru sid = Option.none ∧
    countTrueDeletes st3.events sid = countTrueDeletes st1.events sid + 1 ∧
    (cfg.hasClient = true → cfg.mode = StoreMode.redis → f.delThrows = false →
      mirrorPresent st2.now st2.mirror (generateRedisKey cfg.keyPre sid) = false) := by
  have hA : heapFind st1.transports tid
      = Option.some (Transport.mk t0.sessionId t0.gen
          (CloseHandler.setWrapper (CloseHandler.user tag) sid)) := by
    rw [h1, setOp_spec]
    dsimp only
    rw [hh]
    dsimp only
    rw [hoc]
    exact heapFind_heapSet_self _ _ _
  have hlru1 : st1.lru = lruSet cfg.max st.now st.lru sid tid := by
    rw [h1, setOp_spec]
  have hB : st2 = TransportStore.removeOp cfg f
      { st1 with events := st1.events ++ [Event.userClose tag] } sid := by
    rw [h2]
    exact fireClose_setWrapper_user cfg f st1 tid sid tag _ hA rfl
  have hlru2 : st2.lru = lruRemoveKey st1.lru sid := by
    rw [hB, removeOp_spec]
  have hfind2 : lruFind st2.lru sid = Option.none := by
    rw [hlru2]
    exact lruFind_lruRemoveKey_self _ _
  have htr2 : st2.transports = st1.transports := by
    rw [hB, removeOp_spec]
  have hC : st3 = TransportStore.removeOp cfg f
      { st2 with events := st2.events ++ [Event.userClose tag] } sid := by
    rw [h3]
    refine fireClose_setWrapper_user cfg f st2 tid sid tag
      (Transport.mk t0.sessionId t0.gen
        (CloseHandler.setWrapper (CloseHandler.user tag) sid)) ?_ rfl
    rw [htr2]
    exact hA
  have hfind3 : lruFind st3.lru sid = Option.none := by
    rw [hC, removeOp_spec]
    dsimp only
    exact lruFind_lruRemoveKey_self _ _
  have hp1 : (lruFind st1.lru sid).isSome = true := by
    rw [hlru1, lruFind_lruSet_self cfg.max st.now st.lru sid tid hmax]
    rfl
  have hev2 : countTrueDeletes st2.events sid = countTrueDeletes st1.events sid + 1 := by
    rw [hB, removeOp_spec]
    dsimp only
    rw [countTrueDeletes_append, countTrueDeletes_append, countTrueDeletes_append,
      countTrueDeletes_userClose, countTrueDeletes_mirrorDel_if]
    have hps : (lruFind st1.lru sid).isSome = true := hp1
    rw [hps, countTrueDeletes_localDelete_true]
  have hev3 : countTrueDeletes st3.events sid = countTrueDeletes st2.events sid := by
    rw [hC, removeOp_spec]
    dsimp only
    rw [countTrueDeletes_append, countTrueDeletes_append, countTrueDeletes_append,
      countTrueDeletes_userClose, countTrueDeletes_mirrorDel_if]
    rw [hfind2]
    rw [show (Option.none : Option Entry).isSome = false from rfl,
      countTrueDeletes_localDelete_false]
    omega
  refine ⟨hA, hB, hfind2, hfind3, by rw [hev3, hev2], ?_⟩
  intro hcl hmode hdel
  have hmir : st2.mirror = mirrorErase st1.mirror (generateRedisKey cfg.keyPre sid) := by
    rw [hB, removeOp_spec]
    dsimp only
    rw [if_pos ⟨hcl, hmode, hdel⟩]
  rw [hmir]
  exact mirrorPresent_mirrorErase_self _ _ _

/-- C8 witness: a concrete double-fire of a registered handle's close
notification in a default memory store. -/
theorem claim_C8_witness :
    lruFind (TransportStore.fireClose
      { mode := StoreMode.memory, max := 20, ttl := 600000, updateAgeOnGet := true,
        redisTtlMs := none, keyPre := none, hasClient := false } noFaults
      (TransportStore.fireClose
        { mode := StoreMode.memory, max := 20, ttl := 600000, updateAgeOnGet := true,
          redisTtlMs := none, keyPre := none, hasClient := false } noFaults
        (TransportStore.setOp
          { mode := StoreMode.memory, max := 20, ttl := 600000, updateAgeOnGet := true,
            redisTtlMs := none, keyPre := none, hasClient := false } noFaults
          { now := 0, lru := [],
            transports := [(7, Transport.mk Option.none Option.none (CloseHandler.user 3))],
            nextTid := 8, mirror := [], events := [] } "s1" 7) 7) 7).lru "s1"
      = Option.none ∧
    countTrueDeletes (TransportStore.fireClose
      { mode := StoreMode.memory, max := 20, ttl := 600000, updateAgeOnGet := true,
        redisTtlMs := none, keyPre := none, hasClient := false } noFaults
      (TransportStore.fireClose
        { mode := StoreMode.memory, max := 20, ttl := 600000, updateAgeOnGet := true,
          redisTtlMs := none, keyPre := none, hasClient := false } noFaults
        (TransportStore.setOp
          { mode := StoreMode.memory, max := 20, ttl := 600000, updateAgeOnGet := true,
            redisTtlMs := none, keyPre := none, hasClient := false } noFaults
          { now := 0, lru := [],
            transports := [(7, Transport.mk Option.none Option.none (CloseHandler.user 3))],
            nextTid := 8, mirror := [], events := [] } "s1" 7) 7) 7).events "s1"
      = countTrueDeletes (TransportStore.setOp
          { mode := StoreMode.memory, max := 20, ttl := 600000, updateAgeOnGet := true,
            redisTtlMs := none, keyPre := none, hasClient := false } noFaults
          { now := 0, lru := [],
            transports := [(7, Transport.mk Option.none Option.none (CloseHandler.user 3))],
            nextTid := 8, mirror := [], events := [] } "s1" 7).events "s1" + 1 :=
  ⟨(claim_C8
      { mode := StoreMode.memory, max := 20, ttl := 600000, updateAgeOnGet := true,
        redisTtlMs := none, keyPre := none, hasClient := false } noFaults
      { now := 0, lru := [],
        transports := [(7, Transport.mk Option.none Option.none (CloseHandler.user 3))],
        nextTid := 8, mirror := [], events := [] } "s1" 7 3
      (Transport.mk Option.none Option.none (CloseHandler.user 3)) _ _ _
      (by decide) (by decide) (by decide) rfl rfl rfl).2.2.2.1,
    (claim_C8
      { mode := StoreMode.memory, max := 20, ttl := 600000, updateAgeOnGet := true,
        redisTtlMs := none, keyPre := none, hasClient := false } noFaults
      { now := 0, lru := [],
        transports := [(7, Transport.mk Option.none Option.none (CloseHandler.user 3))],
        nextTid := 8, mirror := [], events := [] } "s1" 7 3
      (Transport.mk Option.none Option.none (CloseHandler.user 3)) _ _ _
      (by decide) (by decide) (by decide) rfl rfl rfl).2.2.2.2.1⟩

/-- C10: close-triggered removal is keyed only by the session id captured at
registration, never by handle identity: after `set(id,t1); set(id,t2)`,
firing t1's close notification performs `remove(id)` on the current state,
deleting t2's entry (the one now stored under `id`) from the local cache and
clearing the mirror presence record for `id`. -/
theorem claim_C10 (cfg : StoreCfg) (f : MirrorFaults) (st : State) (sid : String)
    (tid1 tid2 : Nat) (t1 : Transport) (st1 st2 st3 : State)
    (hmax : 0 < cfg.max) (hne : tid1 ≠ tid2)
    (hh1 : heapFind st.transports tid1 = Option.some t1)
    (hoc1 : t1.onclose = CloseHandler.noHandler)
    (h1 : st1 = TransportStore.setOp cfg f st sid tid1)
    (h2 : st2 = TransportStore.setOp cfg f st1 sid tid2)
    (h3 : st3 = TransportStore.fireClose cfg f st2 tid1) :
    lruFind st2.lru sid = Option.some (Entry.mk tid2 st.now) ∧
    st3 = TransportStore.removeOp cfg f st2 sid ∧
    lruFind st3.lru sid = Option.none ∧
    (cfg.hasClient = true → cfg.mode = StoreMode.redis → f.delThrows = false →
      mirrorPresent st3.now st3.mirror (generateRedisKey cfg.keyPre sid) = false) := by
  have hA1 : heapFind st1.transports tid1
      = Option.some (Transport.mk t1.sessionId t1.gen
          (CloseHandler.setWrapper CloseHandler.noHandler sid)) := by
    rw [h1, setOp_spec]
    dsimp only
    rw [hh1]
    dsimp only
    rw [hoc1]
    exact heapFind_heapSet_self _ _ _
  have hnow1 : st1.now = st.now := by
    rw [h1, setOp_spec]
  have hA2 : heapFind st2.transports tid1
      = Option.some (Transport.mk t1.sessionId t1.gen
          (CloseHandler.setWrapper CloseHandler.noHandler sid)) := by
    rw [h2, setOp_spec]
    dsimp only
    rcases hfind2 : heapFind st1.transports tid2 with _ | t
    · exact hA1
    · dsimp only
      rw [heapFind_heapSet_ne st1.transports tid2 _ tid1 hne]
      exact hA1
  have hlru2 : st2.lru = lruSet cfg.max st.now st1.lru sid tid2 := by
    rw [h2, setOp_spec]
    dsimp only
    rw [hnow1]
  have hB : st3 = TransportStore.removeOp cfg f st2 sid := by
    rw [h3]
    exact fireClose_setWrapper_noHandler cfg f st2 tid1 sid
      (Transport.mk t1.sessionId t1.gen
        (CloseHandler.setWrapper CloseHandler.noHandler sid)) hA2 rfl
  refine ⟨?_, hB, ?_, ?_⟩
  · rw [hlru2]
    exact lruFind_lruSet_self cfg.max st.now st1.lru sid tid2 hmax
  · rw [hB, removeOp_spec]
    dsimp only
    exact lruFind_lruRemoveKey_self _ _
  · intro hcl hmode hdel
    have hmir : st3.mirror = mirrorErase st2.mirror (generateRedisKey cfg.keyPre sid) := by
      rw [hB, removeOp_spec]
      dsimp only
      rw [if_pos ⟨hcl, hmode, hdel⟩]
    rw [hmir]
    exact mirrorPresent_mirrorErase_self _ _ _

/-- C10 witness: two registrations under the same id; firing the first
handle's close removes the second handle's entry. -/
theorem claim_C10_witness :
    lruFind (TransportStore.setOp
      { mode := StoreMode.memory, max := 20, ttl := 600000, updateAgeOnGet := true,
        redisTtlMs := none, keyPre := none, hasClient := false } noFaults
      (TransportStore.setOp
        { mode := StoreMode.memory, max := 20, ttl := 600000, updateAgeOnGet := true,
          redisTtlMs := none, keyPre := none, hasClient := false } noFaults
        { now := 0, lru := [],
          transports := [(1, Transport.mk Option.none Option.none CloseHandler.noHandler),
            (2, Transport.mk Option.none Option.none CloseHandler.noHandler)],
          nextTid := 3, mirror := [], events := [] } "dup" 1) "dup" 2).lru "dup"
      = Option.some (Entry.mk 2 0) ∧
    lruFind (TransportStore.fireClose
      { mode := StoreMode.memory, max := 20, ttl := 600000, updateAgeOnGet := true,
        redisTtlMs := none, keyPre := none, hasClient := false } noFaults
      (TransportStore.setOp
        { mode := StoreMode.memory, max := 20, ttl := 600000, updateAgeOnGet := true,
          redisTtlMs := none, keyPre := none, hasClient := false } noFaults
        (TransportStore.setOp
          { mode := StoreMode.memory, max := 20, ttl := 600000, updateAgeOnGet := true,
            redisTtlMs := none, keyPre := none, hasClient := false } noFaults
          { now := 0, lru := [],
            transports := [(1, Transport.mk Option.none Option.none CloseHandler.noHandler),
              (2, Transport.mk Option.none Option.none CloseHandler.noHandler)],
            nextTid := 3, mirror := [], events := [] } "dup" 1) "dup" 2) 1).lru "dup"
      = Option.none :=
  ⟨(claim_C10
      { mode := StoreMode.memory, max := 20, ttl := 600000, updateAgeOnGet := true,
        redisTtlMs := none, keyPre := none, hasClient := false } noFaults
      { now := 0, lru := [],
        transports := [(1, Transport.mk Option.none Option.none CloseHandler.noHandler),
          (2, Transport.mk Option.none Option.none CloseHandler.noHandler)],
        nextTid := 3, mirror := [], events := [] } "dup" 1 2
      (Transport.mk Option.none Option.none CloseHandler.noHandler) _ _ _
      (by decide) (by decide) (by decide) (by decide) rfl rfl rfl).1,
    (claim_C10
      { mode := StoreMode.memory, max := 20, ttl := 600000, updateAgeOnGet := true,
        redisTtlMs := none, keyPre := none, hasClient := false } noFaults
      { now := 0, lru := [],
        transports := [(1, Transport.mk Option.none Option.none CloseHandler.noHandler),
          (2, Transport.mk Option.none Option.none CloseHandler.noHandler)],
        nextTid := 3, mirror := [], events := [] } "dup" 1 2
      (Transport.mk Option.none Option.none CloseHandler.noHandler) _ _ _
      (by decide) (by decide) (by decide) (by decide) rfl rfl rfl).2.2.1⟩

/-- C9 counterexample: build a mirrored store with `ttlMs = 100`.  The store
the source constructs keeps the *default* 600000 ms ttl for the local LRU
(`lruResolved` in redis mode takes `defaultLruOptions`, ignoring the
configured `ttlMs`): the presence record written by `set` does carry the
100 ms expiry and is gone by t = 200, yet `get` at t = 200 still returns the
local entry as `existing` — the locally cached entry did not expire after
the configured ttlMs, contradicting the claim. -/
theorem claim_C9_counterexample :
    createTransportStoreE
        { type := "redis", ttlMs := some 100,
          connection := some (RedisConnection.url "redis://localhost:6379") } false
      = Except.ok
        { mode := StoreMode.redis, max := 20, ttl := 600000, updateAgeOnGet := true,
          redisTtlMs := some 100, keyPre := none, hasClient := true } ∧
    (TransportStore.setOp
      { mode := StoreMode.redis, max := 20, ttl := 600000, updateAgeOnGet := true,
        redisTtlMs := some 100, keyPre := none, hasClient := true } noFaults
      initState "s" 0).mirror = [("mcp:session:s", 100)] ∧
    mirrorPresent 200 [("mcp:session:s", (100 : Int))] "mcp:session:s" = false ∧
    (TransportStore.getOp
      { mode := StoreMode.redis, max := 20, ttl := 600000, updateAgeOnGet := true,
        redisTtlMs := some 100, keyPre := none, hasClient := true } noFaults
      { TransportStore.setOp
          { mode := StoreMode.redis, max := 20, ttl := 600000, updateAgeOnGet := true,
            redisTtlMs := some 100, keyPre := none, hasClient := true } noFaults
          initState "s" 0 with now := 200 }
      (Option.some "s")).2 = GetResult.existing 0 := by
  decide

/-- C9 (amended): the configured `ttlMs` governs the mirror presence-record
lifetime (default 600000 ms), while in redis mode the local LRU entry always
uses the default lifetime of 600000 ms (and capacity 20, sliding expiration
on), regardless of the configured `ttlMs`. -/
theorem claim_C9 (raw : RawOptions) (ctorFails : Bool) (cfg : StoreCfg)
    (ht : raw.type = "redis")
    (hc : createTransportStoreE raw ctorFails = Except.ok cfg) :
    cfg.ttl = TEN_MINUTES ∧ cfg.max = MAX_ITEMS_COUNT ∧ cfg.updateAgeOnGet = true ∧
    cfg.redisTtlMs = raw.ttlMs ∧ cfg.mode = StoreMode.redis ∧
    (∀ (f : MirrorFaults) (st : State) (sid : String) (tid : Nat),
      cfg.hasClient = true → f.setThrows = false →
      (TransportStore.setOp cfg f st sid tid).mirror
        = mirrorStore st.mirror (generateRedisKey cfg.keyPre sid)
            ((st.now : Int) + raw.ttlMs.getD (TEN_MINUTES : Int))) := by
  have hmem : ¬ raw.type = "memory" := by
    rw [ht]
    decide
  have hp : parseTransportOptions raw
      = Except.ok (ParsedOptions.redis raw.connection raw.ttlMs raw.keyPre) := by
    unfold parseTransportOptions
    rw [if_neg hmem, if_pos ht]
  have hcfg : cfg = resolveStore (ParsedOptions.redis raw.connection raw.ttlMs raw.keyPre)
      ctorFails := by
    unfold createTransportStoreE at hc
    rw [hp] at hc
    exact (Except.ok.injEq _ _).mp hc.symm
  subst hcfg
  refine ⟨rfl, rfl, rfl, rfl, rfl, ?_⟩
  intro f st sid tid hcl hset
  rw [setOp_spec]
  dsimp only
  rw [if_pos ⟨hcl, rfl, hset⟩]
  rfl

/-- C9 witness: the amended claim at the counterexample's configuration —
the presence write carries the configured 100 ms, the local ttl stays
600000. -/
theorem claim_C9_witness :
    (resolveStore (ParsedOptions.redis
        (some (RedisConnection.url "redis://localhost:6379")) (some 100) Option.none)
      false).ttl = TEN_MINUTES ∧
    (TransportStore.setOp
      (resolveStore (ParsedOptions.redis
          (some (RedisConnection.url "redis://localhost:6379")) (some 100) Option.none)
        false) noFaults initState "s" 0).mirror
      = mirrorStore initState.mirror
          (generateRedisKey (resolveStore (ParsedOptions.redis
              (some (RedisConnection.url "redis://localhost:6379")) (some 100) Option.none)
            false).keyPre "s")
          ((initState.now : Int) + (some (100 : Int)).getD (TEN_MINUTES : Int)) :=
  ⟨(claim_C9
      { type := "redis", ttlMs := some 100,
        connection := some (RedisConnection.url "redis://localhost:6379") } false
      (resolveStore (ParsedOptions.redis
          (some (RedisConnection.url "redis://localhost:6379")) (some 100) Option.none)
        false) (by decide) (by decide)).1,
    (claim_C9
      { type := "redis", ttlMs := some 100,
        connection := some (RedisConnection.url "redis://localhost:6379") } false
      (resolveStore (ParsedOptions.redis
          (some (RedisConnection.url "redis://localhost:6379")) (some 100) Option.none)
        false) (by decide) (by decide)).2.2.2.2.2 noFaults initState "s" 0
      (by decide) (by decide)⟩
